import Mathlib

/-!
Verification of the dqx data-quality engine (databricks/labs/dqx) against its
natural-language specification.  The Python sources are shallowly embedded:
a Spark DataFrame becomes a schema (list of column names) plus a list of rows,
a rule's compiled Column expression becomes its per-row semantics
(a function from a row to an optional message), and Python exceptions become
`Except String`.
-/

namespace DQX

/-- Entries of one result-map column (`map<string,string>` in Spark):
ordered (rule name, message) pairs, in rule declaration order. -/
abbrev Entries := List (String × String)

/-- Shallow embedding of a Spark DataFrame: a schema (column names, in order)
and a list of rows of some row type. -/
structure DF (Row : Type) where
  schema : List String
  rows : List Row
  deriving DecidableEq

/-- Shallow embedding of `DQRule` (rule.py).  The compiled Spark expressions
are embedded by their per-row semantics:
`check r` is the value of `self._get_check()` on row `r` (a message string
when the underlying predicate fails, null = `none` otherwise), and
`filter r` is the value of `F.expr(self.filter)` on row `r` (with a null or
absent filter collapsing to `true`/`false` exactly as Spark's `F.when` does;
an absent filter is `F.lit(True)`, i.e. the constant `true` function). -/
structure DQRule (Row : Type) where
  check : Row → Option String
  filter : Row → Bool
  name : String
  criticality : String

/-- Embedding of `DQRule.__post_init__` (rule.py line 62): constructing a rule
computes the check expression and defaults the name to
`"col_" + get_column_name(check)` when an empty name was given.
`autoName` stands for `get_column_name(check)` (utils.py, a caller of which
only the alias string matters here).  No validation of `criticality` happens
at construction. -/
def mkDQRule (check : Row → Option String) (filter : Row → Bool)
    (name : String) (criticality : String) (autoName : String) : DQRule Row :=
  { check := check
    filter := filter
    criticality := criticality
    name := if name = "" then "col_" ++ autoName else name }

/-- Embedding of `DQRule.check_column` (rule.py lines 88-102):
`F.when(check.isNotNull(), F.when(filter, check)).otherwise(lit(null))`.
If the check message is non-null and the filter holds, the message is kept;
in every other case the result is null. -/
def checkColumn (rule : DQRule Row) (r : Row) : Option String :=
  match rule.check r with
  | some m => if rule.filter r then some m else none
  | none => none

/-- Embedding of `DQRule.rule_criticality` (rule.py lines 69-80): returns the
criticality string, raising `ValueError` when it is neither `warn` nor
`error`. -/
def ruleCriticality (rule : DQRule Row) : Except String String :=
  if rule.criticality = "warn" ∨ rule.criticality = "error" then
    .ok rule.criticality
  else
    .error ("Invalid criticality value: " ++ rule.criticality)

/-- Embedding of `DQEngineCore._get_check_columns` (engine.py lines 202-210):
`[check for check in checks if check.rule_criticality == criticality]`.
The comprehension reads `rule_criticality` of each rule in list order, and the
first invalid rule raises. -/
def getCheckColumns : List (DQRule Row) → String → Except String (List (DQRule Row))
  | [], _ => .ok []
  | c :: cs, crit =>
    match ruleCriticality c with
    | .error e => .error e
    | .ok rc =>
      match getCheckColumns cs crit with
      | .error e => .error e
      | .ok rest => .ok (if rc = crit then c :: rest else rest)

/-- The rules of `checks` whose criticality field equals `crit` (the value
`_get_check_columns` returns when every rule's criticality is valid). -/
def tierOf (checks : List (DQRule Row)) (crit : String) : List (DQRule Row) :=
  checks.filter (fun c => c.criticality == crit)

/-- The (name, message) entries of the rules of `checks` whose check column is
non-null on row `r`, in rule declaration order.  This is the content of the
map built by `_create_results_map` after `F.map_filter(m_col, v.isNotNull())`. -/
def triggeredEntries (checks : List (DQRule Row)) (r : Row) : Entries :=
  checks.filterMap (fun c => (checkColumn c r).map (fun v => (c.name, v)))

/-- Column-name configuration of `DQEngineCore` (`self._column_names`). -/
structure ColumnNames where
  errors : String := "_errors"
  warnings : String := "_warnings"
  deriving DecidableEq

/-- Embedding of the `DQEngineCore.__init__` column-name resolution
(engine.py lines 47-54): each name is taken from the `extra_params.column_names`
mapping, defaulting to `_errors` / `_warnings`. -/
def mkColumnNames (overrides : List (String × String)) : ColumnNames :=
  { errors := (overrides.lookup "errors").getD "_errors"
    warnings := (overrides.lookup "warnings").getD "_warnings" }

/-- Embedding of `DQEngineCore._create_results_map` (engine.py lines 224-245).
For an empty check list the destination column is null for every row.
Otherwise, per row, the map of non-null check values keyed by rule name is
built; if it is non-empty (`F.size(m_col) > 0`) it is stored, else the typed
null.  The destination column name is assumed fresh, so `withColumn` appends. -/
def createResultsMap (df : DF Row) (checks : List (DQRule Row)) (destCol : String) :
    DF (Row × Option Entries) :=
  if checks.isEmpty then
    ⟨df.schema ++ [destCol], df.rows.map (fun r => (r, none))⟩
  else
    ⟨df.schema ++ [destCol],
     df.rows.map (fun r =>
       (r, if 0 < (triggeredEntries checks r).length
           then some (triggeredEntries checks r) else none))⟩

/-- A rule over the original row type, reinterpreted over rows extended with a
result column (the second `_create_results_map` call in `apply_checks` runs on
the dataframe already carrying the errors column; the check expressions only
read original columns). -/
def liftRule (rule : DQRule Row) : DQRule (Row × Option Entries) :=
  { check := fun r => rule.check r.1
    filter := fun r => rule.filter r.1
    name := rule.name
    criticality := rule.criticality }

/-- Row type of a checked dataframe: original row, then the errors column,
then the warnings column. -/
abbrev CheckedRow (Row : Type) := (Row × Option Entries) × Option Entries

/-- Embedding of `DQEngineCore._append_empty_checks` (engine.py lines 212-222):
`df.select("*", lit(null) map cast as errors, lit(null) map cast as warnings)`. -/
def appendEmptyChecks (cn : ColumnNames) (df : DF Row) : DF (CheckedRow Row) :=
  ⟨df.schema ++ [cn.errors, cn.warnings], df.rows.map (fun r => ((r, none), none))⟩

/-- Embedding of `DQEngineCore.apply_checks` (engine.py lines 56-65):
empty check list short-circuits to `_append_empty_checks`; otherwise the warn
and error tiers are extracted (warn first — this is where an invalid
criticality raises) and the two result-map columns are added, errors first. -/
def applyChecks (cn : ColumnNames) (df : DF Row) (checks : List (DQRule Row)) :
    Except String (DF (CheckedRow Row)) :=
  if checks.isEmpty then
    .ok (appendEmptyChecks cn df)
  else
    match getCheckColumns checks "warn" with
    | .error e => .error e
    | .ok warningChecks =>
      match getCheckColumns checks "error" with
      | .error e => .error e
      | .ok errorChecks =>
        .ok (createResultsMap
              (createResultsMap df errorChecks cn.errors)
              (warningChecks.map liftRule) cn.warnings)

/-- Embedding of `DQEngineCore.get_invalid` (engine.py lines 107-111):
rows where the errors column or the warnings column is not null. -/
def getInvalid (_cn : ColumnNames) (df : DF (CheckedRow Row)) : DF (CheckedRow Row) :=
  { schema := df.schema
    rows := df.rows.filter (fun rr => rr.1.2.isSome || rr.2.isSome) }

/-- Embedding of `DQEngineCore.get_valid` (engine.py lines 113-116):
rows where the errors column is null, with both result columns dropped. -/
def getValid (cn : ColumnNames) (df : DF (CheckedRow Row)) : DF Row :=
  { schema := df.schema.filter (fun c => !(c == cn.errors || c == cn.warnings))
    rows := (df.rows.filter (fun rr => rr.1.2.isNone)).map (fun rr => rr.1.1) }

/-- Embedding of `DataFrame.limit(0)`: same schema, zero rows. -/
def limitZero (df : DF Row) : DF Row :=
  ⟨df.schema, []⟩

/-- Embedding of `DQEngineCore.apply_checks_and_split` (engine.py lines 67-76). -/
def applyChecksAndSplit (cn : ColumnNames) (df : DF Row) (checks : List (DQRule Row)) :
    Except String (DF Row × DF (CheckedRow Row)) :=
  if checks.isEmpty then
    .ok (df, limitZero (appendEmptyChecks cn df))
  else
    match applyChecks cn df checks with
    | .error e => .error e
    | .ok checked => .ok (getValid cn checked, getInvalid cn checked)

/-! Helper lemmas about the engine embedding. -/

/-- When every rule carries a recognized criticality, `_get_check_columns`
returns the sublist of rules of the requested tier, in order. -/
theorem getCheckColumns_ok (checks : List (DQRule Row)) (crit : String)
    (h : ∀ c ∈ checks, c.criticality = "warn" ∨ c.criticality = "error") :
    getCheckColumns checks crit = .ok (tierOf checks crit) := by
  induction checks with
  | nil => rfl
  | cons c cs ih =>
    have hc : c.criticality = "warn" ∨ c.criticality = "error" := h c (by simp)
    have ih' := ih (fun x hx => h x (by simp [hx]))
    simp only [getCheckColumns, ruleCriticality, if_pos hc, ih', tierOf, List.filter_cons]
    by_cases hcrit : c.criticality = crit
    · simp [hcrit, tierOf]
    · simp [hcrit, tierOf]

/-- The first rule with an unrecognized criticality makes `_get_check_columns`
raise, with that single rule's message. -/
theorem getCheckColumns_first_invalid (pre post : List (DQRule Row)) (c : DQRule Row)
    (crit : String)
    (hpre : ∀ x ∈ pre, x.criticality = "warn" ∨ x.criticality = "error")
    (hbad : ¬(c.criticality = "warn" ∨ c.criticality = "error")) :
    getCheckColumns (pre ++ c :: post) crit =
      .error ("Invalid criticality value: " ++ c.criticality) := by
  induction pre with
  | nil => simp [getCheckColumns, ruleCriticality, hbad]
  | cons p ps ih =>
    have hp : p.criticality = "warn" ∨ p.criticality = "error" := hpre p (by simp)
    have ih' := ih (fun x hx => hpre x (by simp [hx]))
    simp [getCheckColumns, ruleCriticality, if_pos hp, ih']

/-- Per-row content of the column added by `_create_results_map`: the
non-empty list of triggered entries, or null. -/
def resultsCell (checks : List (DQRule Row)) (r : Row) : Option Entries :=
  if 0 < (triggeredEntries checks r).length then some (triggeredEntries checks r) else none

theorem createResultsMap_rows (df : DF Row) (checks : List (DQRule Row)) (destCol : String) :
    (createResultsMap df checks destCol).rows =
      df.rows.map (fun r => (r, resultsCell checks r)) := by
  cases checks with
  | nil => simp [createResultsMap, resultsCell, triggeredEntries]
  | cons c cs => simp [createResultsMap, resultsCell]

theorem triggeredEntries_liftRule (checks : List (DQRule Row)) (x : Row × Option Entries) :
    triggeredEntries (checks.map liftRule) x = triggeredEntries checks x.1 := by
  simp only [triggeredEntries, List.filterMap_map]
  rfl

theorem resultsCell_liftRule (checks : List (DQRule Row)) (x : Row × Option Entries) :
    resultsCell (checks.map liftRule) x = resultsCell checks x.1 := by
  simp [resultsCell, triggeredEntries_liftRule]

theorem resultsCell_eq_none_iff (checks : List (DQRule Row)) (r : Row) :
    resultsCell checks r = none ↔ triggeredEntries checks r = [] := by
  constructor
  · intro hn
    by_contra hne
    have hl : 0 < (triggeredEntries checks r).length := List.length_pos.mpr hne
    simp [resultsCell, hl] at hn
  · intro he
    simp [resultsCell, he]

theorem resultsCell_eq_some (checks : List (DQRule Row)) (r : Row) (l : Entries)
    (h : resultsCell checks r = some l) :
    l = triggeredEntries checks r ∧ l ≠ [] := by
  unfold resultsCell at h
  split_ifs at h with hl
  obtain rfl : triggeredEntries checks r = l := by simpa using h
  exact ⟨rfl, List.length_pos.mp hl⟩

/-- C1: for every dataset and every rule list whose criticalities are all
recognized, and for each tier (error, warn) independently, `apply_checks`
sets that tier's result column of a row to null exactly when zero rules of
that tier produced a non-null message for the row; when at least one rule
triggered, the column holds the non-empty list of triggered entries. -/
theorem apply_checks_tier_null_iff_no_rule_fired (cn : ColumnNames) (df : DF Row)
    (checks : List (DQRule Row))
    (h : ∀ c ∈ checks, c.criticality = "warn" ∨ c.criticality = "error") :
    ∃ out, applyChecks cn df checks = .ok out ∧
      ∀ rr ∈ out.rows,
        (rr.1.2 = none ↔ triggeredEntries (tierOf checks "error") rr.1.1 = []) ∧
        (∀ l, rr.1.2 = some l →
            l = triggeredEntries (tierOf checks "error") rr.1.1 ∧ l ≠ []) ∧
        (rr.2 = none ↔ triggeredEntries (tierOf checks "warn") rr.1.1 = []) ∧
        (∀ l, rr.2 = some l →
            l = triggeredEntries (tierOf checks "warn") rr.1.1 ∧ l ≠ []) := by
  cases checks with
  | nil =>
    refine ⟨appendEmptyChecks cn df, rfl, ?_⟩
    intro rr hrr
    simp only [appendEmptyChecks, List.mem_map] at hrr
    obtain ⟨r, _, rfl⟩ := hrr
    simp [tierOf, triggeredEntries]
  | cons c0 cs0 =>
    have hw := getCheckColumns_ok (c0 :: cs0) "warn" h
    have he := getCheckColumns_ok (c0 :: cs0) "error" h
    refine ⟨createResultsMap (createResultsMap df (tierOf (c0 :: cs0) "error") cn.errors)
              ((tierOf (c0 :: cs0) "warn").map liftRule) cn.warnings, ?_, ?_⟩
    · simp [applyChecks, hw, he]
    · intro rr hrr
      rw [createResultsMap_rows, createResultsMap_rows, List.map_map] at hrr
      simp only [List.mem_map, Function.comp] at hrr
      obtain ⟨r, _, rfl⟩ := hrr
      simp only [resultsCell_liftRule]
      refine ⟨resultsCell_eq_none_iff _ _, fun l hl => resultsCell_eq_some _ _ _ hl,
              resultsCell_eq_none_iff _ _, fun l hl => resultsCell_eq_some _ _ _ hl⟩

/-- Concrete rules and dataframe exercising `apply_checks`: an error rule
firing on negative values and a warn rule firing on values above three. -/
def wErrRule : DQRule Int :=
  { check := fun r => if r < 0 then some "negative" else none
    filter := fun _ => true
    name := "err_rule"
    criticality := "error" }

def wWarnRule : DQRule Int :=
  { check := fun r => if 3 < r then some "large" else none
    filter := fun _ => true
    name := "warn_rule"
    criticality := "warn" }

/-- C1 witness: the tier-null characterization instantiated on a concrete
dataframe and rule list. -/
theorem apply_checks_tier_null_iff_no_rule_fired_witness :
    ∃ out, applyChecks {} (⟨["a"], [(-1 : Int), 5]⟩ : DF Int) [wErrRule, wWarnRule] = .ok out ∧
      ∀ rr ∈ out.rows,
        (rr.1.2 = none ↔ triggeredEntries (tierOf [wErrRule, wWarnRule] "error") rr.1.1 = []) ∧
        (∀ l, rr.1.2 = some l →
            l = triggeredEntries (tierOf [wErrRule, wWarnRule] "error") rr.1.1 ∧ l ≠ []) ∧
        (rr.2 = none ↔ triggeredEntries (tierOf [wErrRule, wWarnRule] "warn") rr.1.1 = []) ∧
        (∀ l, rr.2 = some l →
            l = triggeredEntries (tierOf [wErrRule, wWarnRule] "warn") rr.1.1 ∧ l ≠ []) :=
  apply_checks_tier_null_iff_no_rule_fired {} _ _
    (by simp [wErrRule, wWarnRule])

/-- C2: `get_invalid` keeps exactly the rows whose errors or warnings column
is non-null; `get_valid` keeps exactly the rows whose errors column is null
and drops both result columns; a warning-only row appears in both outputs. -/
theorem get_valid_get_invalid_membership (cn : ColumnNames) (df : DF (CheckedRow Row)) :
    ((getInvalid cn df).schema = df.schema) ∧
    (∀ rr : CheckedRow Row,
        rr ∈ (getInvalid cn df).rows ↔ rr ∈ df.rows ∧ (rr.1.2 ≠ none ∨ rr.2 ≠ none)) ∧
    ((getValid cn df).schema =
        df.schema.filter (fun c => !(c == cn.errors || c == cn.warnings))) ∧
    (∀ r : Row, r ∈ (getValid cn df).rows ↔
        ∃ rr ∈ df.rows, rr.1.2 = none ∧ rr.1.1 = r) ∧
    (∀ rr ∈ df.rows, rr.1.2 = none → rr.2 ≠ none →
        rr ∈ (getInvalid cn df).rows ∧ rr.1.1 ∈ (getValid cn df).rows) := by
  have hinv : ∀ rr : CheckedRow Row,
      rr ∈ (getInvalid cn df).rows ↔ rr ∈ df.rows ∧ (rr.1.2 ≠ none ∨ rr.2 ≠ none) := by
    intro rr
    simp [getInvalid, List.mem_filter, Option.isSome_iff_ne_none]
  have hval : ∀ r : Row, r ∈ (getValid cn df).rows ↔
      ∃ rr ∈ df.rows, rr.1.2 = none ∧ rr.1.1 = r := by
    intro r
    simp [getValid, List.mem_map, List.mem_filter, Option.isNone_iff_eq_none, and_assoc]
  refine ⟨rfl, hinv, rfl, hval, ?_⟩
  intro rr hrr herr hwarn
  exact ⟨(hinv rr).mpr ⟨hrr, Or.inr hwarn⟩, (hval rr.1.1).mpr ⟨rr, hrr, herr, rfl⟩⟩

/-- Concrete checked dataframe with a clean row, a warning-only row and an
error row. -/
def wCheckedDF : DF (CheckedRow Int) :=
  ⟨["a", "_errors", "_warnings"],
   [((1, none), none),
    ((2, none), some [("warn_rule", "large")]),
    ((3, some [("err_rule", "negative")]), none)]⟩

/-- C2 witness: the splitter characterization instantiated on a concrete
checked dataframe containing a clean row, a warning-only row and an error
row. -/
theorem get_valid_get_invalid_membership_witness :
    (∀ rr : CheckedRow Int,
        rr ∈ (getInvalid {} wCheckedDF).rows ↔
          rr ∈ wCheckedDF.rows ∧ (rr.1.2 ≠ none ∨ rr.2 ≠ none)) ∧
    (∀ rr ∈ wCheckedDF.rows, rr.1.2 = none → rr.2 ≠ none →
        rr ∈ (getInvalid {} wCheckedDF).rows ∧ rr.1.1 ∈ (getValid {} wCheckedDF).rows) :=
  ⟨(get_valid_get_invalid_membership {} wCheckedDF).2.1,
   (get_valid_get_invalid_membership {} wCheckedDF).2.2.2.2⟩

/-- C3: a rule whose filter rejects a row contributes nothing to that row
regardless of its predicate; a rule whose filter accepts a row and whose
predicate yields a message contributes its (name, message) entry to the
row's triggered entries. -/
theorem rule_filter_gates_contribution (rule : DQRule Row) (checks : List (DQRule Row))
    (r : Row) (hmem : rule ∈ checks) :
    (rule.filter r = false →
        checkColumn rule r = none ∧ triggeredEntries [rule] r = []) ∧
    (∀ m, rule.filter r = true → rule.check r = some m →
        checkColumn rule r = some m ∧ (rule.name, m) ∈ triggeredEntries checks r) := by
  constructor
  · intro hf
    have h1 : checkColumn rule r = none := by
      unfold checkColumn
      cases hc : rule.check r <;> simp [hf]
    exact ⟨h1, by simp [triggeredEntries, h1]⟩
  · intro m hf hc
    have h1 : checkColumn rule r = some m := by
      unfold checkColumn
      rw [hc]
      simp [hf]
    exact ⟨h1, List.mem_filterMap.mpr ⟨rule, hmem, by simp [h1]⟩⟩

/-- Concrete rule with filter `b>3` on rows (a, b): fires when a = 0. -/
def wFilterRule : DQRule (Int × Int) :=
  { check := fun r => if r.1 = 0 then some "a is zero" else none
    filter := fun r => decide (3 < r.2)
    name := "a_zero"
    criticality := "error" }

/-- C3 witness: on row (0, 1) the filter fails and the rule contributes
nothing although the predicate fires; on row (0, 5) the filter holds and the
entry appears. -/
theorem rule_filter_gates_contribution_witness :
    (checkColumn wFilterRule ((0 : Int), (1 : Int)) = none ∧
      triggeredEntries [wFilterRule] ((0 : Int), (1 : Int)) = []) ∧
    (checkColumn wFilterRule ((0 : Int), (5 : Int)) = some "a is zero" ∧
      (wFilterRule.name, "a is zero") ∈ triggeredEntries [wFilterRule] ((0 : Int), (5 : Int))) :=
  ⟨(rule_filter_gates_contribution wFilterRule [wFilterRule] (0, 1) (by simp)).1 (by decide),
   (rule_filter_gates_contribution wFilterRule [wFilterRule] (0, 5) (by simp)).2
      "a is zero" (by decide) (by decide)⟩

/-- C4 counterexample: with an empty rule list on a one-column dataframe,
`apply_checks_and_split` returns an invalid part with zero rows but with the
two result columns in its schema — not the input's schema, refuting the
claim's "invalid equal to the input's schema". -/
theorem empty_checks_split_schema_counterexample :
    applyChecksAndSplit {} (⟨["a"], [(7 : Int)]⟩ : DF Int) [] =
      .ok (⟨["a"], [7]⟩, ⟨["a", "_errors", "_warnings"], []⟩) ∧
    (["a", "_errors", "_warnings"] : List String) ≠ ["a"] := by
  exact ⟨rfl, by decide⟩

/-- C4 (amended): with an empty rule list, `apply_checks` returns the input
with the two result columns appended as typed null for every row, and
`apply_checks_and_split` returns the input unchanged as valid and a zero-row
invalid part whose schema is the input's schema extended with the two result
columns. -/
theorem empty_checks_append_typed_null (cn : ColumnNames) (df : DF Row) :
    applyChecks cn df [] =
      .ok ⟨df.schema ++ [cn.errors, cn.warnings],
           df.rows.map (fun r => ((r, none), none))⟩ ∧
    applyChecksAndSplit cn df [] =
      .ok (df, ⟨df.schema ++ [cn.errors, cn.warnings], []⟩) :=
  ⟨rfl, rfl⟩

/-- C9: a rule is constructed with any criticality string without validation;
the invalid-criticality error surfaces per rule when `apply_checks` first
reads the rule's criticality (via `_get_check_columns`), as a single
`ValueError` naming the first invalid rule, not a batched report. -/
theorem invalid_criticality_lazy_at_apply (cn : ColumnNames) (df : DF Row)
    (pre post : List (DQRule Row)) (c : DQRule Row)
    (hpre : ∀ x ∈ pre, x.criticality = "warn" ∨ x.criticality = "error")
    (hbad : ¬(c.criticality = "warn" ∨ c.criticality = "error")) :
    (∀ (chk : Row → Option String) (fl : Row → Bool) (nm an : String),
        (mkDQRule chk fl nm c.criticality an).criticality = c.criticality) ∧
    applyChecks cn df (pre ++ c :: post) =
      .error ("Invalid criticality value: " ++ c.criticality) := by
  refine ⟨fun _ _ _ _ => rfl, ?_⟩
  have hne : (pre ++ c :: post).isEmpty = false := by cases pre <;> rfl
  rw [applyChecks, hne, getCheckColumns_first_invalid pre post c "warn" hpre hbad]
  rfl

/-! Embedding of the metadata-driven validation and rule building
(engine.py lines 94-105, 142-187, 247-378).  Python values appearing as
check-function arguments, the callables of a namespace, and function
signatures obtained through `inspect.signature` are embedded as data. -/

/-- Python types appearing as parameter annotations of check functions. -/
inductive PyType where
  | tInt
  | tStr
  | tBool
  | tList
  deriving DecidableEq

/-- Python values appearing as arguments in a check specification. -/
inductive PyVal where
  | vint (n : Int)
  | vstr (s : String)
  | vbool (b : Bool)
  | vlist (xs : List PyVal)

/-- Embedding of Python's `isinstance` for the embedded values and types
(`bool` is a subtype of `int` in Python). -/
def isinstance : PyVal → PyType → Bool
  | .vint _, .tInt => true
  | .vbool _, .tInt => true
  | .vbool _, .tBool => true
  | .vstr _, .tStr => true
  | .vlist _, .tList => true
  | _, _ => false

def pyTypeName : PyType → String
  | .tInt => "int"
  | .tStr => "str"
  | .tBool => "bool"
  | .tList => "list"

/-- One declared parameter of a check function, as `inspect.signature` reports
it: a name and an optional type annotation (`none` for `Parameter.empty`). -/
structure SigParam where
  name : String
  annot : Option PyType := none
  deriving DecidableEq

/-- An object a function name can resolve to: a callable check-function
factory with its declared signature, or any non-callable attribute. -/
inductive PyObj where
  | func (name : String) (params : List SigParam)
  | nonCallable (objRepr : String)
  deriving DecidableEq

/-- Embedding of Python's `callable(func)` on the result of a lookup
(`None` is not callable). -/
def pyCallable : Option PyObj → Bool
  | some (.func _ _) => true
  | _ => false

/-- A name-to-object mapping: the `col_functions` module namespace or a
caller-supplied `glbs` mapping. -/
abbrev PyNamespace := List (String × PyObj)

/-- Embedding of `DQEngineCore._resolve_function` (engine.py lines 368-378).
`if glbs:` is Python truthiness, so a `None` or empty mapping falls through
to the built-ins.  With a truthy `glbs` the name is looked up there only,
via `glbs.get(func_name)`, which yields `None` for a missing name and never
raises — regardless of `fail_on_missing`.  Without a truthy `glbs`,
`getattr(col_functions, func_name)` raises `AttributeError` for a missing
name when `fail_on_missing`, and `getattr(..., None)` yields `None`
otherwise.  `builtins` stands for the `col_functions` module namespace. -/
def resolveFunction (builtins : PyNamespace) (funcName : String)
    (glbs : Option PyNamespace) (failOnMissing : Bool) : Except String (Option PyObj) :=
  if (glbs.getD []).isEmpty then
    if failOnMissing then
      match builtins.lookup funcName with
      | some f => .ok (some f)
      | none => .error ("AttributeError: module col_functions has no attribute " ++ funcName)
    else .ok (builtins.lookup funcName)
  else
    .ok ((glbs.getD []).lookup funcName)

/-- The value of an `arguments` key inside a check block: either a mapping of
argument names to values, or something that is not a mapping. -/
inductive ArgsField where
  | notDict (objRepr : String)
  | args (pairs : List (String × PyVal))

/-- The value of the `check` key of a spec: a block (with optional `function`
and `arguments` keys) or something that is not a mapping. -/
inductive CheckField where
  | notDict (objRepr : String)
  | block (function : Option String) (arguments : Option ArgsField)

/-- One raw check-specification dictionary.  A field is `none` when the key
is absent.  Key values of unexpected Python types other than the ones the
validator distinguishes are not needed by the claims; the `criticality`
value is kept as a string (any string, not only the recognized ones). -/
structure CheckSpec where
  criticality : Option String := none
  check : Option CheckField := none
  name : Option String := none
  filter : Option String := none

/-- One element of the raw check list handed to `validate_checks`: a mapping,
or a value of some other type (its type name kept for the message). -/
inductive SpecItem where
  | dict (spec : CheckSpec)
  | notDict (typeName : String)

/-- Rendering of a spec used where the source echoes the whole dict into an
error message (`f"...: {check}"`).  Python's dict repr is abstracted by a
fixed structural rendering; only its presence and injectivity on the claims'
inputs matter, never its exact shape. -/
def reprSpec (spec : CheckSpec) : String :=
  "spec(criticality=" ++ spec.criticality.getD "None" ++
    ", check=" ++
    (match spec.check with
     | none => "None"
     | some (.notDict r) => r
     | some (.block fn _) => "block(function=" ++ fn.getD "None" ++ ")") ++
    ", name=" ++ spec.name.getD "None" ++ ")"

/-- Embedding of `DQEngineCore._validate_func_args` (engine.py lines 329-366):
an error when no arguments were provided but the signature expects some, then
per provided argument an unknown-name or annotation-mismatch error. -/
def validateFuncArgs (pairs : List (String × PyVal)) (funcName : String)
    (params : List SigParam) (spec : CheckSpec) : List String :=
  (if pairs.isEmpty ∧ ¬params.isEmpty then
    ["No arguments provided for function '" ++ funcName ++
      "' in the 'arguments' block: " ++ reprSpec spec ++
      ". Expected arguments are: " ++ String.intercalate ", " (params.map (fun p => p.name))]
   else []) ++
  pairs.flatMap (fun kv =>
    match params.find? (fun p => p.name == kv.1) with
    | none =>
      ["Unexpected argument '" ++ kv.1 ++ "' for function '" ++ funcName ++
        "' in the 'arguments' block: " ++ reprSpec spec ++
        ". Expected arguments are: " ++ String.intercalate ", " (params.map (fun p => p.name))]
    | some p =>
      match p.annot with
      | none => []
      | some ty =>
        if isinstance kv.2 ty then []
        else
          ["Argument '" ++ kv.1 ++ "' should be of type '" ++ pyTypeName ty ++
            "' for function '" ++ funcName ++ "' in the 'arguments' block: " ++ reprSpec spec])

/-- Embedding of `DQEngineCore._validate_check_function_arguments`
(engine.py lines 298-327): `arguments` must be a mapping; a `col_names`
entry must be a non-empty list and is validated once as if its first element
were `col_name`. -/
def validateCheckFunctionArguments (args : ArgsField) (funcName : String)
    (params : List SigParam) (spec : CheckSpec) : List String :=
  match args with
  | .notDict _ => ["'arguments' should be a dictionary in the 'check' block: " ++ reprSpec spec]
  | .args pairs =>
    match pairs.lookup "col_names" with
    | some (.vlist []) =>
      ["'col_names' should not be empty in the 'arguments' block: " ++ reprSpec spec]
    | some (.vlist (x :: _)) =>
      validateFuncArgs
        (pairs.map (fun kv => if kv.1 = "col_names" then ("col_name", x) else kv))
        funcName params spec
    | some _ =>
      ["'col_names' should be a list in the 'arguments' block: " ++ reprSpec spec]
    | none => validateFuncArgs pairs funcName params spec

/-- Embedding of `DQEngineCore._validate_check_block` (engine.py lines
273-296): a missing `function` key or a name that does not resolve to a
callable each yield a single error and stop the per-spec validation;
otherwise the arguments (defaulting to an empty mapping) are validated. -/
def validateCheckBlock (builtins : PyNamespace) (glbs : Option PyNamespace)
    (spec : CheckSpec) (fn : Option String) (args : Option ArgsField) : List String :=
  match fn with
  | none => ["'function' field is missing in the 'check' block: " ++ reprSpec spec]
  | some fname =>
    match resolveFunction builtins fname glbs false with
    | .error e => [e]
    | .ok fo =>
      match fo with
      | some (.func fnm params) =>
        validateCheckFunctionArguments (args.getD (.args [])) fnm params spec
      | _ => ["function '" ++ fname ++ "' is not defined: " ++ reprSpec spec]

/-- The criticality part of `_validate_checks_dict` (engine.py line 261):
an error when the key is present with a value outside the recognized set. -/
def criticalityErrors (spec : CheckSpec) : List String :=
  if spec.criticality.isSome ∧
      ¬(spec.criticality = some "warn" ∨ spec.criticality = some "error") then
    ["Invalid value for 'criticality' field: " ++ reprSpec spec]
  else []

/-- Embedding of `DQEngineCore._validate_checks_dict` (engine.py lines
247-271): the criticality error (independent), then the `check` field
handling. -/
def validateChecksDict (builtins : PyNamespace) (glbs : Option PyNamespace)
    (spec : CheckSpec) : List String :=
  criticalityErrors spec ++
    (match spec.check with
     | none => ["'check' field is missing: " ++ reprSpec spec]
     | some (.notDict _) => ["'check' field should be a dictionary: " ++ reprSpec spec]
     | some (.block fn args) => validateCheckBlock builtins glbs spec fn args)

/-- Embedding of `ChecksValidationStatus` (rule.py lines 144-176). -/
structure ChecksValidationStatus where
  errors : List String := []
  deriving DecidableEq

def ChecksValidationStatus.addError (s : ChecksValidationStatus) (e : String) :
    ChecksValidationStatus :=
  ⟨s.errors ++ [e]⟩

def ChecksValidationStatus.addErrors (s : ChecksValidationStatus) (es : List String) :
    ChecksValidationStatus :=
  ⟨s.errors ++ es⟩

def ChecksValidationStatus.hasErrors (s : ChecksValidationStatus) : Bool :=
  !s.errors.isEmpty

/-- Embedding of `ChecksValidationStatus.to_string` / `__str__`. -/
def ChecksValidationStatus.render (s : ChecksValidationStatus) : String :=
  if s.hasErrors then String.intercalate "\n" s.errors else "No errors found"

/-- Loop body of `DQEngineCore.validate_checks` (engine.py lines 94-105):
mapping items contribute their dict-validation errors, any other item one
unsupported-type error; nothing raises. -/
def validateChecksLoop (builtins : PyNamespace) (glbs : Option PyNamespace)
    (status : ChecksValidationStatus) : List SpecItem → ChecksValidationStatus
  | [] => status
  | .dict spec :: rest =>
    validateChecksLoop builtins glbs
      (status.addErrors (validateChecksDict builtins glbs spec)) rest
  | .notDict tn :: rest =>
    validateChecksLoop builtins glbs
      (status.addError ("Unsupported check type: " ++ tn)) rest

/-- Embedding of `DQEngineCore.validate_checks`. -/
def validateChecks (builtins : PyNamespace) (items : List SpecItem)
    (glbs : Option PyNamespace) : ChecksValidationStatus :=
  validateChecksLoop builtins glbs ⟨[]⟩ items

/-- The errors a single raw check item contributes. -/
def specItemErrors (builtins : PyNamespace) (glbs : Option PyNamespace) :
    SpecItem → List String
  | .dict spec => validateChecksDict builtins glbs spec
  | .notDict tn => ["Unsupported check type: " ++ tn]

/-- A rule produced by `build_checks_by_metadata`, at the metadata level: the
resolved function name, the bound column (for `col_names` expansions), the
explicit name if any, criticality, filter and remaining keyword arguments.
The Python closure `func(**func_args)` is abstracted into this record. -/
structure BuiltRule where
  funcName : String
  colName : Option PyVal := none
  name : Option String := none
  criticality : String := "error"
  filter : Option String := none
  kwargs : List (String × PyVal) := []

/-- Embedding of the per-spec body of `DQEngineCore.build_checks_by_metadata`
(engine.py lines 161-184).  In the `col_names` branch a `DQRuleColSet` is
expanded into one rule per column (arguments minus `col_names`, no explicit
name, shared criticality and filter).  In the single-rule branch the source
calls `DQRule(check=check_func, ...)`, but `DQRule` (rule.py) has no `check`
field — the frozen dataclass constructor raises `TypeError` — so that branch
is an error.  Branches unreachable after a clean validation are modelled by
the Python exception they would raise. -/
def buildRulesForSpec (builtins : PyNamespace) (glbs : Option PyNamespace)
    (spec : CheckSpec) : Except String (List BuiltRule) :=
  match spec.check with
  | some (.block fnOpt argsOpt) =>
    match fnOpt with
    | none => .error "TypeError: attribute name must be string, not NoneType"
    | some fname =>
      match resolveFunction builtins fname glbs true with
      | .error e => .error e
      | .ok none => .error "AssertionError: func"
      | .ok (some (.nonCallable r)) => .error ("TypeError: " ++ r ++ " is not callable")
      | .ok (some (.func _ _)) =>
        match argsOpt.getD (.args []) with
        | .notDict r => .error ("TypeError: argument of type " ++ r ++ " is not a mapping")
        | .args pairs =>
          match pairs.lookup "col_names" with
          | some (.vlist cols) =>
            .ok (cols.map (fun cv =>
              { funcName := fname
                colName := some cv
                name := none
                criticality := spec.criticality.getD "error"
                filter := spec.filter
                kwargs := pairs.filter (fun kv => kv.1 != "col_names") }))
          | some _ => .error "TypeError: object is not iterable"
          | none =>
            .error "TypeError: DQRule.__init__ got an unexpected keyword argument 'check'"
  | some (.notDict r) => .error ("AttributeError: " ++ r ++ " object has no attribute get")
  | none =>
    -- `check_def.get("check", {})` yields an empty dict whose `function` is None
    .error "TypeError: attribute name must be string, not NoneType"

/-- The spec-list loop of `build_checks_by_metadata`: specs are processed in
order and their rules concatenated; the first raising spec aborts. -/
def buildRulesLoop (builtins : PyNamespace) (glbs : Option PyNamespace) :
    List SpecItem → Except String (List BuiltRule)
  | [] => .ok []
  | .notDict tn :: _ => .error ("AttributeError: '" ++ tn ++ "' object has no attribute get")
  | .dict spec :: rest =>
    match buildRulesForSpec builtins glbs spec with
    | .error e => .error e
    | .ok rules =>
      match buildRulesLoop builtins glbs rest with
      | .error e => .error e
      | .ok more => .ok (rules ++ more)

/-- Embedding of `DQEngineCore.build_checks_by_metadata` (engine.py lines
142-187): validate everything first; when the status has errors, raise
`ValueError(str(status))` and build nothing; otherwise build the rules. -/
def buildChecksByMetadata (builtins : PyNamespace) (items : List SpecItem)
    (glbs : Option PyNamespace) : Except String (List BuiltRule) :=
  if (validateChecks builtins items glbs).hasErrors then
    .error (validateChecks builtins items glbs).render
  else buildRulesLoop builtins glbs items

/-- The status accumulated by `validate_checks` collects, in order, the
errors of every item — nothing is dropped and nothing raises. -/
theorem validateChecksLoop_errors (builtins : PyNamespace) (glbs : Option PyNamespace)
    (st : ChecksValidationStatus) (items : List SpecItem) :
    (validateChecksLoop builtins glbs st items).errors =
      st.errors ++ items.flatMap (specItemErrors builtins glbs) := by
  induction items generalizing st with
  | nil => simp [validateChecksLoop]
  | cons i rest ih =>
    cases i with
    | dict spec =>
      simp [validateChecksLoop, ih, ChecksValidationStatus.addErrors, specItemErrors]
    | notDict tn =>
      simp [validateChecksLoop, ih, ChecksValidationStatus.addError, specItemErrors]

/-- Concrete namespace: the built-in function used by the build witnesses. -/
def wFuncNNE : PyObj :=
  .func "is_not_null_and_not_empty" [⟨"col_name", some .tStr⟩, ⟨"trim_strings", some .tBool⟩]

def wBuiltins : PyNamespace := [("is_not_null_and_not_empty", wFuncNNE)]

/-- A perfectly valid single-column spec (the `col_name` branch of the
builder). -/
def wSingleColSpec : CheckSpec :=
  { criticality := some "warn"
    check := some (.block (some "is_not_null_and_not_empty")
      (some (.args [("col_name", .vstr "g")]))) }

/-- A spec with no `check` field at all. -/
def wMissingCheckSpec : CheckSpec := {}

/-- A spec whose only defect is an unrecognized criticality. -/
def wBadCritSpec : CheckSpec :=
  { criticality := some "severe"
    check := some (.block (some "is_not_null_and_not_empty")
      (some (.args [("col_name", .vstr "h")]))) }

/-- C7: `validate_checks` accumulates the errors of every invalid spec
without raising, and `build_checks_by_metadata` raises one composite
`ValueError` carrying the full concatenated error text whenever validation
reported errors — but the converse direction of the claim fails: on a fully
valid single-column spec, validation reports nothing yet the build raises
`TypeError`, because `DQRule(check=check_func, ...)` (engine.py line 184)
passes a `check` keyword that `DQRule` (rule.py) does not declare.  The
repository's own unit test `test_build_rules_by_metadata` expects that call
to succeed, so the claim matches the intent and the code is the slip. -/
theorem validate_accumulates_and_build_composite_failure :
    (∀ (builtins : PyNamespace) (items : List SpecItem) (glbs : Option PyNamespace),
        (validateChecks builtins items glbs).errors =
          items.flatMap (specItemErrors builtins glbs)) ∧
    (buildChecksByMetadata wBuiltins [.dict wMissingCheckSpec, .dict wBadCritSpec] none =
        .error ("'check' field is missing: " ++ reprSpec wMissingCheckSpec ++ "\n" ++
          ("Invalid value for 'criticality' field: " ++ reprSpec wBadCritSpec))) ∧
    ((validateChecks wBuiltins [.dict wSingleColSpec] none).errors = []) ∧
    (buildChecksByMetadata wBuiltins [.dict wSingleColSpec] none =
        .error "TypeError: DQRule.__init__ got an unexpected keyword argument 'check'") := by
  refine ⟨?_, rfl, rfl, rfl⟩
  intro b i g
  simpa using validateChecksLoop_errors b g ⟨[]⟩ i

/-- C8 counterexample: with a (non-empty) overrides mapping supplied and
`fail_on_missing=True`, a name missing from the overrides resolves to null —
no exception is raised, even though the name exists among the built-ins. -/
theorem resolve_overrides_missing_counterexample :
    resolveFunction [("missing_fn", .func "missing_fn" [])] "missing_fn"
        (some [("other", .func "other" [])]) true = .ok none := rfl

/-- C8 (amended): with a non-empty overrides mapping the name is looked up
only there (built-ins never consulted) and a missing name yields null
regardless of `fail_on_missing`; without a truthy overrides mapping a
missing name raises `AttributeError` when `fail_on_missing` is true and
yields null when it is false. -/
theorem resolve_function_overrides_and_failure_modes (builtins : PyNamespace)
    (g : PyNamespace) (hg : g ≠ []) (name : String) (fom : Bool) :
    (resolveFunction builtins name (some g) fom = .ok (g.lookup name)) ∧
    (builtins.lookup name = none →
        resolveFunction builtins name none true =
          .error ("AttributeError: module col_functions has no attribute " ++ name)) ∧
    (∀ f, builtins.lookup name = some f →
        resolveFunction builtins name none true = .ok (some f)) ∧
    (resolveFunction builtins name none false = .ok (builtins.lookup name)) := by
  refine ⟨by simp [resolveFunction, hg], ?_, ?_, by simp [resolveFunction]⟩
  · intro h
    simp [resolveFunction, h]
  · intro f h
    simp [resolveFunction, h]

/-- C8 witness: resolution instantiated concretely — overrides branch with a
missing name returns null even under strict mode, and the built-ins branch
raises for a missing name in strict mode. -/
theorem resolve_function_overrides_and_failure_modes_witness :
    resolveFunction [("missing_fn", .func "missing_fn" [])] "missing_fn"
        (some [("other", .func "other" [])]) false = .ok none ∧
    resolveFunction [] "absent" none true =
      .error ("AttributeError: module col_functions has no attribute " ++ "absent") :=
  ⟨(resolve_function_overrides_and_failure_modes [("missing_fn", .func "missing_fn" [])]
      [("other", .func "other" [])] (by simp) "missing_fn" false).1,
   (resolve_function_overrides_and_failure_modes [] [("other", .func "other" [])]
      (by simp) "absent" true).2.1 rfl⟩

/-- C10: a check block lacking a `function` key, or naming something that is
not callable, contributes exactly one error for the block and triggers no
argument-level validation (for arbitrary `arguments` content), while an
invalid criticality on the same spec is still reported as its own separate
error, prepended to the block error. -/
theorem check_block_single_error_short_circuit (builtins : PyNamespace)
    (glbs : Option PyNamespace) (crit nm fl : Option String)
    (args : Option ArgsField) (fname : String) (fo : Option PyObj)
    (hres : resolveFunction builtins fname glbs false = .ok fo)
    (hfo : pyCallable fo = false) :
    (validateChecksDict builtins glbs ⟨crit, some (.block none args), nm, fl⟩ =
        criticalityErrors ⟨crit, some (.block none args), nm, fl⟩ ++
          ["'function' field is missing in the 'check' block: " ++
            reprSpec ⟨crit, some (.block none args), nm, fl⟩]) ∧
    (validateChecksDict builtins glbs ⟨crit, some (.block (some fname) args), nm, fl⟩ =
        criticalityErrors ⟨crit, some (.block (some fname) args), nm, fl⟩ ++
          ["function '" ++ fname ++ "' is not defined: " ++
            reprSpec ⟨crit, some (.block (some fname) args), nm, fl⟩]) ∧
    (crit.isSome ∧ ¬(crit = some "warn" ∨ crit = some "error") →
        ∀ cf : Option CheckField,
          criticalityErrors ⟨crit, cf, nm, fl⟩ =
            ["Invalid value for 'criticality' field: " ++ reprSpec ⟨crit, cf, nm, fl⟩]) := by
  refine ⟨rfl, ?_, ?_⟩
  · simp only [validateChecksDict, validateCheckBlock, hres]
    cases fo with
    | none => rfl
    | some o =>
      cases o with
      | func n p => simp [pyCallable] at hfo
      | nonCallable r => rfl
  · intro hbad cf
    unfold criticalityErrors
    rw [if_pos hbad]

/-- Spec with a bad criticality and no `function` key in its check block. -/
def wC10NoFn : CheckSpec :=
  { criticality := some "sev", check := some (.block none (some (.args [("x", .vint 1)]))) }

/-- Spec with a bad criticality whose check block names an unresolvable
function. -/
def wC10Ghost : CheckSpec :=
  { criticality := some "sev"
    check := some (.block (some "ghost") (some (.args [("x", .vint 1)]))) }

/-- C10 witness: the short-circuit behaviour instantiated on concrete specs
(empty built-ins, no overrides, arguments present but never inspected). -/
theorem check_block_single_error_short_circuit_witness :
    (validateChecksDict [] none wC10NoFn =
        criticalityErrors wC10NoFn ++
          ["'function' field is missing in the 'check' block: " ++ reprSpec wC10NoFn]) ∧
    (validateChecksDict [] none wC10Ghost =
        criticalityErrors wC10Ghost ++
          ["function '" ++ "ghost" ++ "' is not defined: " ++ reprSpec wC10Ghost]) ∧
    (criticalityErrors wC10NoFn =
        ["Invalid value for 'criticality' field: " ++ reprSpec wC10NoFn]) :=
  ⟨(check_block_single_error_short_circuit [] none (some "sev") none none
      (some (.args [("x", .vint 1)])) "ghost" none rfl rfl).1,
   (check_block_single_error_short_circuit [] none (some "sev") none none
      (some (.args [("x", .vint 1)])) "ghost" none rfl rfl).2.1,
   (check_block_single_error_short_circuit [] none (some "sev") none none
      (some (.args [("x", .vint 1)])) "ghost" none rfl rfl).2.2
     (by simp) (some (.block none (some (.args [("x", .vint 1)]))))⟩

/-! Embedding of the statistical profiler (profiler.py).  The numeric
carrier is a linear ordered field with a floor function; ℚ instantiates it
for executable checks and ℝ for the exact standard deviation of a concrete
dataset.  Spark's aggregations (min/max/mean/stddev rows from `collect()`)
are parameters of the embedded functions, exactly as `get_min_max` receives
them in the source. -/

/-- Spark column types the profiler distinguishes. -/
inductive SparkType where
  | integerT
  | longT
  | floatT
  | doubleT
  | decimalT
  | dateT
  | timestampT
  | stringT
  deriving DecidableEq

/-- A profiler option value: a boolean, a number, or a list of column names. -/
inductive OptVal (K : Type) where
  | ob (b : Bool)
  | on (x : K)
  | ostrs (ss : List String)

/-- The options mapping handed to the profiler. -/
abbrev ProfileOpts (K : Type) := List (String × OptVal K)

section Profiler

variable {K : Type} [LinearOrderedField K] [FloorRing K]

/-- Python truthiness of an option value as used in boolean positions. -/
def optTruthy : OptVal K → Bool
  | .ob b => b
  | .on x => decide (x ≠ 0)
  | .ostrs ss => !ss.isEmpty

/-- Embedding of `opts.get(key, default)` used in a boolean position. -/
def optGetBoolish (opts : ProfileOpts K) (key : String) (dflt : Bool) : Bool :=
  match opts.lookup key with
  | some v => optTruthy v
  | none => dflt

/-- Embedding of `opts.get(key, default)` used in a numeric position (a
non-numeric stored value would raise later in Python arithmetic; the claims
never store one under a numeric key). -/
def optGetNum (opts : ProfileOpts K) (key : String) (dflt : K) : K :=
  match opts.lookup key with
  | some (.on x) => x
  | _ => dflt

/-- Embedding of `opts.get(key, default)` for the `outlier_columns` list. -/
def optGetStrs (opts : ProfileOpts K) (key : String) (dflt : List String) : List String :=
  match opts.lookup key with
  | some (.ostrs ss) => ss
  | _ => dflt

/-- Embedding of `default_profile_options` (profiler.py lines 175-186). -/
def defaultProfileOptions : ProfileOpts K :=
  [("round", .ob true),
   ("max_in_count", .on 10),
   ("distinct_ratio", .on (1 / 20)),
   ("max_null_ratio", .on (1 / 100)),
   ("remove_outliers", .ob true),
   ("outlier_columns", .ostrs []),
   ("num_sigmas", .on 3),
   ("trim_strings", .ob true),
   ("max_empty_ratio", .on (1 / 100))]

/-- Embedding of the merge `{**default_profile_options, **opts}` performed by
`profile` (profiler.py line 381): the user options win.  `List.lookup` takes
the first hit, so prepending the user options yields the same lookups as the
Python dict merge. -/
def mergedProfileOptions (user : ProfileOpts K) : ProfileOpts K :=
  user ++ defaultProfileOptions

/-- Embedding of `round_value` (profiler.py lines 124-148) on numeric values:
`if not value or not opts.get("round", False): return value` — note that a
value of exactly 0 is falsy in Python and is returned unrounded — then a
float is floored ("down") or ceiled ("up"); an int is returned unchanged and
a decimal is rounded to an integral value, both of which coincide with
flooring/ceiling over the field.  Datetime rounding is in `typeFix`. -/
def roundValueNum (v : K) (direction : String) (doRound : Bool) : K :=
  if v = 0 ∨ ¬doRound then v
  else if direction = "down" then (⌊v⌋ : K)
  else if direction = "up" then (⌈v⌉ : K)
  else v

/-- Python `int(x)`: truncation toward zero. -/
def pyIntTrunc (v : K) : K :=
  if 0 ≤ v then (⌊v⌋ : K) else (⌈v⌉ : K)

/-- Which branch of `get_min_max` produced the description string; the
source's f-strings interpolate the numeric metrics, so each constructor
stands for one exact message shape.  `realBoth` is the literal
"Real min/max values were used", which the plain branch of
`extract_min_max` also sets. -/
inductive MinMaxDescr where
  | cappedBoth
  | realBoth
  | realMinCappedMax
  | realMaxCappedMin
  deriving DecidableEq

/-- The collected aggregation row `mn_mx[0]` of the outlier branch:
(min, max, mean, stddev).  Spark's min/max are non-null whenever the mean
is; mean and standard deviation may be null (all-null input, or a single
row for the sample stddev). -/
structure MnMxRow (K : Type) where
  mn : K
  mx : K
  avg : Option K
  sd : Option K

/-- The "we need to preserve type at the end" block of `get_min_max`
(profiler.py lines 297-312).  Integer types: `int(round_value(...))`.
Dates were cast to epoch seconds upstream; `date.fromtimestamp(int(v))` is
represented by its truncated epoch seconds.  Timestamps are additionally
rounded to midnight (down) or midnight plus one day (up) by
`_round_datetime`, here in epoch seconds with a fixed UTC timezone. -/
def typeFix (typ : SparkType) (direction : String) (v : K) : K :=
  match typ with
  | .integerT | .longT => pyIntTrunc (roundValueNum v direction true)
  | .dateT => pyIntTrunc v
  | .timestampT =>
    if direction = "down" then (86400 : K) * (⌊pyIntTrunc v / 86400⌋ : K)
    else if direction = "up" then (86400 : K) * (⌊pyIntTrunc v / 86400⌋ : K) + 86400
    else pyIntTrunc v
  | _ => v

/-- Embedding of `get_min_max` (profiler.py lines 241-315), the pure part
after the Spark aggregation.  `mnMx` is the collected row (`none` when
`collect()` yielded nothing), `descr0`, `maxLimit0`, `minLimit0` are the
incoming values (all `None` at the call site); the return order (descr,
max_limit, min_limit) follows the source.  The `metrics` dict mutations only
feed the interpolated message strings and the date/timestamp echo of the
metrics, and are dropped.  NOTE: the number of sigmas is read as
`opts.get("sigmas", 3)` — not the `num_sigmas` key that
`default_profile_options` documents and defines. -/
def getMinMax (descr0 : Option MinMaxDescr) (maxLimit0 minLimit0 : Option K)
    (mnMx : Option (MnMxRow K)) (opts : ProfileOpts K) (typ : SparkType) :
    Option MinMaxDescr × Option K × Option K :=
  match mnMx with
  | none => (descr0, maxLimit0, minLimit0)
  | some row =>
    match row.avg, row.sd with
    | some avg, some sd =>
      let sigmas := optGetNum opts "sigmas" 3
      let minL := avg - sigmas * sd
      let maxL := avg + sigmas * sd
      let res :=
        if minL > row.mn ∧ maxL < row.mx then
          (some MinMaxDescr.cappedBoth, minL, maxL)
        else if minL < row.mn ∧ maxL > row.mx then
          (some MinMaxDescr.realBoth, row.mn, row.mx)
        else if minL < row.mn then
          (some MinMaxDescr.realMinCappedMax, row.mn, maxL)
        else if maxL > row.mx then
          (some MinMaxDescr.realMaxCappedMin, minL, row.mx)
        else (descr0, minL, maxL)
      (res.1, some (typeFix typ "up" res.2.2), some (typeFix typ "down" res.2.1))
    | _, _ => (descr0, maxLimit0, minLimit0)

/-- The `min_max` profile `extract_min_max` emits: the `DQProfile` with
`parameters={min, max}` and its description branch. -/
structure MinMaxProfile (K : Type) where
  column : String
  minParam : K
  maxParam : K
  descr : MinMaxDescr

/-- Python truthiness of a computed limit in the final guard
`if descr and min_limit and max_limit` (profiler.py line 233): a numeric
zero is falsy; date/datetime objects are always truthy. -/
def limitTruthy (typ : SparkType) (v : K) : Bool :=
  match typ with
  | .dateT | .timestampT => true
  | _ => decide (v ≠ 0)

/-- Embedding of `extract_min_max` (profiler.py lines 189-238) after the
Spark aggregations: `aggFull` is the (min, max, mean, stddev) row of the
outlier branch (dates/timestamps already cast to epoch seconds), `aggMnMx`
the (min, max) row of the plain branch.  The final guard
`if descr and min_limit and max_limit` suppresses the rule when any of the
three is falsy — in particular when a computed numeric limit equals 0. -/
def extractMinMax (colName : String) (typ : SparkType) (opts : ProfileOpts K)
    (aggFull : Option (MnMxRow K)) (aggMnMx : Option (K × K)) :
    Option (MinMaxProfile K) :=
  if optGetBoolish opts "remove_outliers" true &&
      ((optGetStrs opts "outlier_columns" []).isEmpty ||
        (optGetStrs opts "outlier_columns" []).contains colName) then
    match getMinMax none none none aggFull opts typ with
    | (some d, some mxv, some mnv) =>
      if limitTruthy typ mnv && limitTruthy typ mxv then
        some ⟨colName, mnv, mxv, d⟩
      else none
    | _ => none
  else
    match aggMnMx with
    | some (mn, mx) =>
      let mnv := roundValueNum mn "down" (optGetBoolish opts "round" false)
      let mxv := roundValueNum mx "up" (optGetBoolish opts "round" false)
      if limitTruthy typ mnv && limitTruthy typ mxv then
        some ⟨colName, mnv, mxv, MinMaxDescr.realBoth⟩
      else none
    | none => none

end Profiler

/-- C6: the sigma-capped interval is computed with `opts.get("sigmas", 3)`,
so the `num_sigmas` option — present in the merged options and documented in
`default_profile_options` itself — is ignored.  With `num_sigmas = 5` and
aggregates (min 0, max 100, mean 50, stddev 2) the capped interval is
mean ± 3σ = [44, 56], not the claimed mean ± 5σ = [40, 60]; storing the same
number under the unadvertised key `sigmas` does change the width. -/
theorem sigma_capping_ignores_num_sigmas :
    optGetNum (mergedProfileOptions [("num_sigmas", OptVal.on (5 : ℚ))]) "num_sigmas" 3 = 5 ∧
    getMinMax none none none (some ⟨0, 100, some 50, some 2⟩)
        (mergedProfileOptions [("num_sigmas", OptVal.on (5 : ℚ))]) .doubleT =
      (some MinMaxDescr.cappedBoth, some 56, some 44) ∧
    getMinMax none none none (some ⟨0, 100, some 50, some 2⟩)
        (mergedProfileOptions [("sigmas", OptVal.on (5 : ℚ))]) .doubleT =
      (some MinMaxDescr.cappedBoth, some 60, some 40) ∧
    ((50 : ℚ) - 5 * 2 = 40 ∧ (50 : ℚ) + 5 * 2 = 60) := by
  refine ⟨rfl, ?_, ?_, by norm_num⟩
  · have h1 : optGetNum (mergedProfileOptions [("num_sigmas", OptVal.on (5 : ℚ))]) "sigmas" 3
        = 3 := rfl
    simp only [getMinMax, h1]
    norm_num [typeFix]
  · have h1 : optGetNum (mergedProfileOptions [("sigmas", OptVal.on (5 : ℚ))]) "sigmas" 3
        = 5 := rfl
    simp only [getMinMax, h1]
    norm_num [typeFix]

/-- The C5 dataset: the values 0..100 plus one outlier 10000. -/
def wC5Data : List ℕ := List.range 101 ++ [10000]

set_option maxRecDepth 8000 in
/-- C5: on the column holding 0..100 and the outlier 10000, with default
options (`num_sigmas` left at 3), `get_min_max` takes the "real min, capped
max" branch: lower bound the true minimum 0, upper bound strictly below the
true maximum 10000.  But `extract_min_max` then emits no rule at all,
because the final guard `if descr and min_limit and max_limit` treats the
numeric lower bound 0 as falsy.  The hypotheses pin `s` to the exact sample
standard deviation of the data, whose mean is 15050/102 = 7525/51 and whose
sample variance is (Σx² − n·mean²)/(n−1) = 5004004600/5151. -/
theorem profile_outlier_min_zero_rule_dropped (s : ℝ)
    (hs0 : 0 ≤ s) (hs2 : s ^ 2 = 5004004600 / 5151) :
    (wC5Data.length = 102 ∧ wC5Data.sum = 15050 ∧
      (wC5Data.map (fun x => x * x)).sum = 100338350 ∧
      wC5Data.min? = some 0 ∧ wC5Data.max? = some 10000) ∧
    ((7525 / 51 : ℝ) = 15050 / 102 ∧
      (5004004600 / 5151 : ℝ) = (100338350 - 102 * (15050 / 102) ^ 2) / 101) ∧
    (∃ M : ℝ,
      getMinMax none none none (some ⟨0, 10000, some (7525 / 51), some s⟩)
          (mergedProfileOptions [("num_sigmas", OptVal.on (3 : ℝ))]) .longT =
        (some MinMaxDescr.realMinCappedMax, some M, some 0) ∧
      0 < M ∧ M < 10000) ∧
    extractMinMax "x" .longT (mergedProfileOptions [("num_sigmas", OptVal.on (3 : ℝ))])
        (some ⟨0, 10000, some (7525 / 51), some s⟩) none = none := by
  have h3s : (7525 / 51 : ℝ) < 3 * s := by nlinarith [hs2, hs0]
  have hle : 3 * s ≤ 9999 - 7525 / 51 := by nlinarith [hs2, hs0]
  have h3snn : (0 : ℝ) ≤ 3 * s := by linarith
  have hminL : (7525 / 51 : ℝ) - 3 * s < 0 := by linarith
  have hmaxpos : (0 : ℝ) < 7525 / 51 + 3 * s := by linarith
  have hmaxle : (7525 / 51 : ℝ) + 3 * s ≤ 9999 := by linarith
  have hsig : optGetNum (mergedProfileOptions [("num_sigmas", OptVal.on (3 : ℝ))]) "sigmas" 3
      = 3 := rfl
  have hgm : getMinMax none none none (some ⟨0, 10000, some (7525 / 51), some s⟩)
      (mergedProfileOptions [("num_sigmas", OptVal.on (3 : ℝ))]) .longT =
      (some MinMaxDescr.realMinCappedMax,
        some (typeFix SparkType.longT "up" (7525 / 51 + 3 * s)),
        some (typeFix SparkType.longT "down" (0 : ℝ))) := by
    simp only [getMinMax, hsig]
    split_ifs with h1 h2
    · exfalso
      have := h1.1
      simp only [gt_iff_lt] at this
      linarith
    · exfalso
      have := h2.2
      simp only [gt_iff_lt] at this
      linarith
    · rfl
  have hzero : typeFix SparkType.longT "down" (0 : ℝ) = 0 := by
    simp [typeFix, roundValueNum, pyIntTrunc]
  have hUne : (7525 / 51 + 3 * s : ℝ) ≠ 0 := ne_of_gt hmaxpos
  have hceilpos : (0 : ℤ) < ⌈(7525 / 51 + 3 * s : ℝ)⌉ := Int.ceil_pos.mpr hmaxpos
  have hceilnn : (0 : ℝ) ≤ ((⌈(7525 / 51 + 3 * s : ℝ)⌉ : ℤ) : ℝ) := by exact_mod_cast hceilpos.le
  have hup : typeFix SparkType.longT "up" (7525 / 51 + 3 * s) =
      ((⌈(7525 / 51 + 3 * s : ℝ)⌉ : ℤ) : ℝ) := by
    simp [typeFix, roundValueNum, pyIntTrunc, hUne, hceilnn]
  have hMpos : (0 : ℝ) < ((⌈(7525 / 51 + 3 * s : ℝ)⌉ : ℤ) : ℝ) := by exact_mod_cast hceilpos
  have hceille : ⌈(7525 / 51 + 3 * s : ℝ)⌉ ≤ (9999 : ℤ) := Int.ceil_le.mpr (by push_cast; linarith)
  have hMlt : ((⌈(7525 / 51 + 3 * s : ℝ)⌉ : ℤ) : ℝ) < 10000 := by
    have h9 : ((⌈(7525 / 51 + 3 * s : ℝ)⌉ : ℤ) : ℝ) ≤ 9999 := by exact_mod_cast hceille
    linarith
  refine ⟨by decide, by norm_num, ⟨((⌈(7525 / 51 + 3 * s : ℝ)⌉ : ℤ) : ℝ), ?_, hMpos, hMlt⟩, ?_⟩
  · rw [hgm, hzero, hup]
  · unfold extractMinMax
    rw [hgm, hzero, hup]
    simp [optGetBoolish, optGetStrs, mergedProfileOptions, defaultProfileOptions, optTruthy,
      limitTruthy]

/-- C5 witness: the exact sample standard deviation instantiated as
`Real.sqrt` of the variance, discharging both hypotheses, with the
rule-suppression conclusion extracted. -/
theorem profile_outlier_min_zero_rule_dropped_witness :
    (0 : ℝ) ≤ Real.sqrt (5004004600 / 5151) ∧
    Real.sqrt (5004004600 / 5151) ^ 2 = 5004004600 / 5151 ∧
    extractMinMax "x" .longT (mergedProfileOptions [("num_sigmas", OptVal.on (3 : ℝ))])
        (some ⟨0, 10000, some (7525 / 51), some (Real.sqrt (5004004600 / 5151))⟩) none =
      none :=
  ⟨Real.sqrt_nonneg _,
   Real.sq_sqrt (by norm_num),
   (profile_outlier_min_zero_rule_dropped (Real.sqrt (5004004600 / 5151))
      (Real.sqrt_nonneg _) (Real.sq_sqrt (by norm_num))).2.2.2⟩

/-- Concrete rules for the lazy-criticality witness. -/
def wLazyWarn : DQRule Int :=
  { check := fun _ => none, filter := fun _ => true, name := "w", criticality := "warn" }

def wLazyBad : DQRule Int :=
  { check := fun _ => none, filter := fun _ => true, name := "b", criticality := "critical" }

def wLazyErr : DQRule Int :=
  { check := fun _ => none, filter := fun _ => true, name := "e", criticality := "error" }

/-- C9 witness: a rule constructed with criticality "critical" makes
`apply_checks` raise the single invalid-criticality error. -/
theorem invalid_criticality_lazy_at_apply_witness :
    ((mkDQRule (fun _ => none) (fun _ => true) "b" "critical" "x" : DQRule Int).criticality
        = "critical") ∧
    applyChecks {} (⟨["a"], [(1 : Int)]⟩ : DF Int) ([wLazyWarn] ++ wLazyBad :: [wLazyErr]) =
      .error ("Invalid criticality value: " ++ "critical") :=
  ⟨(invalid_criticality_lazy_at_apply {} (⟨["a"], [(1 : Int)]⟩ : DF Int) [wLazyWarn] [wLazyErr]
      wLazyBad (by simp [wLazyWarn]) (by simp [wLazyBad])).1 _ _ _ _,
   (invalid_criticality_lazy_at_apply {} (⟨["a"], [(1 : Int)]⟩ : DF Int) [wLazyWarn] [wLazyErr]
      wLazyBad (by simp [wLazyWarn]) (by simp [wLazyBad])).2⟩

end DQX
